import Mathlib

/-!
Verification of the lightwave-cli client/transport core against its
natural-language specification.

The Rust source (src/api.rs, src/utils.rs, src/cli.rs, src/models.rs) is
shallowly embedded below.  Rust strings are modelled as `List Char`; JSON
values as the inductive `Json`; `f32`/`f64` values as exact rationals
tagged with the IEEE special values NaN and the two infinities; fallible
operations as `Option`/`Except`.  Each `def` mirrors one Rust item and is
named after it where Lean allows.
-/

set_option maxRecDepth 8192

namespace LightWave

/-- JSON values as produced by serde_json.  Numbers keep the integer/float
distinction of `serde_json::Number`; an embedded float carries the exact
rational value of the decimal literal it was parsed from (the IEEE rounding
of that literal is immaterial to every claim below, which only ever inspect
the classification of a value, never a rounded float payload). -/
inductive Json where
  | null : Json
  | bool : Bool → Json
  | int : Int → Json
  | float : Rat → Json
  | str : List Char → Json
  | arr : List Json → Json
  | obj : List (List Char × Json) → Json

/-- The error enum `ApiError` of src/api.rs.  The payload of
`RequestError` (a reqwest error) and the serde error text inside
`DeserializationError` are opaque runtime messages; they are carried here
as plain character lists. -/
inductive ApiError where
  | requestError : List Char → ApiError
  | deserializationError : List Char → ApiError
  | apiResponseError : List Char → Nat → ApiError
  | clientError : List Char → ApiError
deriving DecidableEq

/-- An HTTP response as seen by the client: a status code and a body.
`body = none` models a body that is not syntactically valid JSON; `some j`
a body whose JSON parse yields `j`. -/
structure Response where
  status : Nat
  body : Option Json

/-- `StatusCode::is_success()`: the 2xx range. -/
def isSuccess (status : Nat) : Bool :=
  200 ≤ status ∧ status ≤ 299

/-- ASCII lower-casing of one character, as used by
`str::eq_ignore_ascii_case`. -/
def asciiLower (c : Char) : Char :=
  if 'A' ≤ c ∧ c ≤ 'Z' then Char.ofNat (c.toNat + 32) else c

/-- `str::eq_ignore_ascii_case`. -/
def eqIgnoreAsciiCase (a b : List Char) : Bool :=
  decide (a.map asciiLower = b.map asciiLower)

/-- `str::trim_end_matches('/')`: remove every trailing slash. -/
def trimEndSlashes (s : List Char) : List Char :=
  (s.reverse.dropWhile (fun c => c = '/')).reverse

/-- `LightWaveClient::format_base_url` (src/api.rs lines 85-95): trim the
trailing slashes; return unchanged when the result already ends with
"/api", otherwise append "/api". -/
def format_base_url (url : List Char) : List Char :=
  let url := trimEndSlashes url
  if "/api".toList.isSuffixOf url then url
  else url ++ "/api".toList

/-- `LightWaveClient::get_base_url` (src/api.rs lines 69-83).  The
environment lookup `env::var("LIGHTWAVE_URL")` is passed in as an
`Option`; the function always returns `Ok` in the source. -/
def get_base_url (url_arg : Option (List Char)) (env_url : Option (List Char)) :
    Except ApiError (List Char) :=
  match url_arg with
  | some url => Except.ok (format_base_url url)
  | none =>
    match env_url with
    | some url => Except.ok (format_base_url url)
    | none => Except.ok "http://localhost:8000/api".toList

example : format_base_url "http://h:8000/".toList = "http://h:8000/api".toList := by decide
example : format_base_url "http://h:8000/api".toList = "http://h:8000/api".toList := by decide
example : format_base_url "http://h:8000/api/".toList = "http://h:8000/api".toList := by decide

/-! ### Numeric literal parsing (Rust `str::parse` for `i64` and `f64`) -/

/-- ASCII decimal digit test. -/
def isAsciiDigit (c : Char) : Bool :=
  '0' ≤ c ∧ c ≤ '9'

/-- Numeric value of one ASCII digit. -/
def digitVal (c : Char) : Nat :=
  c.toNat - '0'.toNat

/-- Value of a run of ASCII digits, most significant first. -/
def digitsToNat (ds : List Char) : Nat :=
  ds.foldl (fun acc c => 10 * acc + digitVal c) 0

/-- Strip one optional leading sign; `true` means negative. -/
def splitSign : List Char → Bool × List Char
  | '+' :: r => (false, r)
  | '-' :: r => (true, r)
  | r => (false, r)

/-- Rust `str::parse::<i64>`: optional sign, one or more ASCII digits, and
the value must fit in the signed 64-bit range. -/
def parseI64 (s : List Char) : Option Int :=
  let p := splitSign s
  if p.2 = [] ∨ ¬ p.2.all isAsciiDigit then none
  else
    let v : Int := if p.1 then -(digitsToNat p.2 : Int) else (digitsToNat p.2 : Int)
    if -(2 ^ 63) ≤ v ∧ v ≤ 2 ^ 63 - 1 then some v else none

/-- Result of parsing a string as an `f64`: a finite value (carried as the
exact rational value of the decimal literal), an infinity, or NaN. -/
inductive F64Val where
  | finite : Rat → F64Val
  | inf : Bool → F64Val
  | nan : F64Val
deriving DecidableEq

/-- The smallest positive real whose round-to-nearest-ties-to-even
binary64 image is +infinity: 2^1024 - 2^970. -/
def f64OverflowBound : Nat :=
  2 ^ 1024 - 2 ^ 970

/-- Whether the magnitude M * 10^k reaches the binary64 overflow
threshold, i.e. whether Rust parses the literal to an infinity. -/
def decOverflows (M : Nat) (k : Int) : Bool :=
  if 0 ≤ k then f64OverflowBound ≤ M * 10 ^ k.toNat
  else f64OverflowBound * 10 ^ (-k).toNat ≤ M

/-- Exact rational value of the decimal literal with digits worth `M`,
decimal exponent `k`, and sign `neg`. -/
def decValue (neg : Bool) (M : Nat) (k : Int) : Rat :=
  let mag : Rat :=
    if 0 ≤ k then ((M * 10 ^ k.toNat : Nat) : Rat)
    else (M : Rat) / ((10 ^ (-k).toNat : Nat) : Rat)
  if neg then -mag else mag

/-- Classify the parsed decimal literal as Rust does: an overflowing
magnitude becomes an infinity, everything else stays finite (tiny values
round to zero, which is finite). -/
def roundF64 (neg : Bool) (M : Nat) (k : Int) : F64Val :=
  if decOverflows M k then F64Val.inf neg else F64Val.finite (decValue neg M k)

/-- Exponent suffix of the `f64` grammar: empty, or [eE] sign? digit+. -/
def parseExp : List Char → Option Int
  | [] => some 0
  | c :: r =>
    if c = 'e' ∨ c = 'E' then
      let p := splitSign r
      if p.2 ≠ [] ∧ p.2.all isAsciiDigit then
        some (if p.1 then -(digitsToNat p.2 : Int) else (digitsToNat p.2 : Int))
      else none
    else none

/-- Rust `str::parse::<f64>`: sign? followed by `inf`, `infinity` or `nan`
(ASCII case-insensitive), or a decimal number `Digit+ | Digit+ . Digit* |
Digit* . Digit+` with an optional exponent. -/
def parseF64 (s : List Char) : Option F64Val :=
  let p := splitSign s
  if eqIgnoreAsciiCase p.2 "inf".toList ∨ eqIgnoreAsciiCase p.2 "infinity".toList then
    some (F64Val.inf p.1)
  else if eqIgnoreAsciiCase p.2 "nan".toList then
    some F64Val.nan
  else
    let intDigits := p.2.takeWhile isAsciiDigit
    let rest1 := p.2.dropWhile isAsciiDigit
    let q :=
      match rest1 with
      | '.' :: r => (r.takeWhile isAsciiDigit, r.dropWhile isAsciiDigit)
      | r => ([], r)
    if intDigits = [] ∧ q.1 = [] then none
    else
      match parseExp q.2 with
      | none => none
      | some e => some (roundF64 p.1 (digitsToNat (intDigits ++ q.1)) (e - q.1.length))

example : parseI64 "42".toList = some 42 := by decide
example : parseI64 "-42".toList = some (-42) := by decide
example : parseI64 "9223372036854775808".toList = none := by decide
example : parseI64 "3.14".toList = none := by decide
example : ∃ q, parseF64 "3.14".toList = some (F64Val.finite q) := ⟨_, rfl⟩
example : parseF64 "nan".toList = some F64Val.nan := by decide
example : parseF64 "-inf".toList = some (F64Val.inf true) := by decide
example : parseF64 "1e999".toList = some (F64Val.inf false) := by decide
example : parseF64 "hello".toList = none := by decide

/-! ### Value coercion (`parse_params`, src/utils.rs lines 49-76) -/

/-- The value classification inside `parse_params`: try, in order,
case-insensitive `true`/`false`, then `i64`, then `f64` (non-finite
results fall back to the string, mirroring `serde_json::Number::from_f64`
returning `None`), else keep the string verbatim. -/
def coerceValue (value : List Char) : Json :=
  if eqIgnoreAsciiCase value "true".toList then Json.bool true
  else if eqIgnoreAsciiCase value "false".toList then Json.bool false
  else
    match parseI64 value with
    | some num => Json.int num
    | none =>
      match parseF64 value with
      | some (F64Val.finite q) => Json.float q
      | some _ => Json.str value
      | none => Json.str value

/-- Rust `str::split_once`: split at the first occurrence of `c`. -/
def splitOnce (c : Char) : List Char → Option (List Char × List Char)
  | [] => none
  | x :: xs =>
    if x = c then some ([], xs)
    else
      match splitOnce c xs with
      | some q => some (x :: q.1, q.2)
      | none => none

/-- `HashMap::insert`: replace the value when the key is present,
otherwise add the binding. -/
def insertAL (m : List (List Char × Json)) (k : List Char) (v : Json) :
    List (List Char × Json) :=
  match m with
  | [] => [(k, v)]
  | p :: rest => if p.1 = k then (k, v) :: rest else p :: insertAL rest k v

/-- `HashMap::get`-style lookup in the association-list model. -/
def lookupAL (m : List (List Char × Json)) (k : List Char) : Option Json :=
  match m with
  | [] => none
  | p :: rest => if p.1 = k then some p.2 else lookupAL rest k

/-- One iteration of the `parse_params` loop: split the entry on the
first `=` (entries without `=` are skipped) and insert the coerced
value. -/
def parseParamsStep (result : List (List Char × Json)) (param : List Char) :
    List (List Char × Json) :=
  match splitOnce '=' param with
  | some kv => insertAL result kv.1 (coerceValue kv.2)
  | none => result

/-- `parse_params` (src/utils.rs lines 49-76); the `HashMap` is modelled
as an association list with replace-on-insert. -/
def parse_params (params : List (List Char)) : List (List Char × Json) :=
  params.foldl parseParamsStep []

/-- Specification-side description of the duplicate-key rule: the value
carried by the last entry of the list that yields the key `k`, scanning
the later entries first. -/
def lastValueFor (k : List Char) : List (List Char) → Option (List Char)
  | [] => none
  | p :: ps =>
    match lastValueFor k ps with
    | some v => some v
    | none =>
      match splitOnce '=' p with
      | some kv => if kv.1 = k then some kv.2 else none
      | none => none

example :
    parse_params ["a=1".toList, "b=true".toList, "a=2".toList, "c=x=y".toList] =
      [("a".toList, Json.int 2), ("b".toList, Json.bool true),
       ("c".toList, Json.str "x=y".toList)] := by
  rfl

example :
    parse_params ["speed=5".toList, "smooth=true".toList] =
      [("speed".toList, Json.int 5), ("smooth".toList, Json.bool true)] := by
  rfl

/-! ### IEEE single-precision values and their comparisons -/

/-- An `f32` value: a finite value (carried as its exact rational value),
an infinity (`true` = negative), or NaN. -/
inductive F32 where
  | finite : Rat → F32
  | inf : Bool → F32
  | nan : F32
deriving DecidableEq

/-- IEEE `<` on `f32`: any comparison with NaN is false; negative zero
equals positive zero (both are `finite 0` here). -/
def F32.lt : F32 → F32 → Bool
  | F32.nan, _ => false
  | _, F32.nan => false
  | F32.inf true, F32.inf true => false
  | F32.inf true, _ => true
  | F32.inf false, _ => false
  | F32.finite _, F32.inf true => false
  | F32.finite _, F32.inf false => true
  | F32.finite a, F32.finite b => decide (a < b)

/-- IEEE `≤` on `f32`: any comparison with NaN is false. -/
def F32.le : F32 → F32 → Bool
  | F32.nan, _ => false
  | _, F32.nan => false
  | F32.inf true, _ => true
  | F32.inf false, F32.inf false => true
  | F32.inf false, _ => false
  | F32.finite _, F32.inf false => true
  | F32.finite _, F32.inf true => false
  | F32.finite a, F32.finite b => decide (a ≤ b)

/-- serde_json serialization of an `f32` field: finite values become JSON
numbers, NaN and the infinities become `null`. -/
def f32ToJson : F32 → Json
  | F32.finite q => Json.float q
  | F32.inf _ => Json.null
  | F32.nan => Json.null

/-! ### Status display and error classification (src/api.rs) -/

/-- `StatusCode::canonical_reason()` of the `http` crate: the registered
reason phrase for a status code, when there is one. -/
def canonicalReason (status : Nat) : Option (List Char) :=
  match status with
  | 100 => some "Continue".toList
  | 101 => some "Switching Protocols".toList
  | 102 => some "Processing".toList
  | 200 => some "OK".toList
  | 201 => some "Created".toList
  | 202 => some "Accepted".toList
  | 203 => some "Non Authoritative Information".toList
  | 204 => some "No Content".toList
  | 205 => some "Reset Content".toList
  | 206 => some "Partial Content".toList
  | 207 => some "Multi-Status".toList
  | 208 => some "Already Reported".toList
  | 226 => some "IM Used".toList
  | 300 => some "Multiple Choices".toList
  | 301 => some "Moved Permanently".toList
  | 302 => some "Found".toList
  | 303 => some "See Other".toList
  | 304 => some "Not Modified".toList
  | 305 => some "Use Proxy".toList
  | 307 => some "Temporary Redirect".toList
  | 308 => some "Permanent Redirect".toList
  | 400 => some "Bad Request".toList
  | 401 => some "Unauthorized".toList
  | 402 => some "Payment Required".toList
  | 403 => some "Forbidden".toList
  | 404 => some "Not Found".toList
  | 405 => some "Method Not Allowed".toList
  | 406 => some "Not Acceptable".toList
  | 407 => some "Proxy Authentication Required".toList
  | 408 => some "Request Timeout".toList
  | 409 => some "Conflict".toList
  | 410 => some "Gone".toList
  | 411 => some "Length Required".toList
  | 412 => some "Precondition Failed".toList
  | 413 => some "Payload Too Large".toList
  | 414 => some "URI Too Long".toList
  | 415 => some "Unsupported Media Type".toList
  | 416 => some "Range Not Satisfiable".toList
  | 417 => some "Expectation Failed".toList
  | 418 => some "I\x27m a teapot".toList
  | 421 => some "Misdirected Request".toList
  | 422 => some "Unprocessable Entity".toList
  | 423 => some "Locked".toList
  | 424 => some "Failed Dependency".toList
  | 425 => some "Too Early".toList
  | 426 => some "Upgrade Required".toList
  | 428 => some "Precondition Required".toList
  | 429 => some "Too Many Requests".toList
  | 431 => some "Request Header Fields Too Large".toList
  | 451 => some "Unavailable For Legal Reasons".toList
  | 500 => some "Internal Server Error".toList
  | 501 => some "Not Implemented".toList
  | 502 => some "Bad Gateway".toList
  | 503 => some "Service Unavailable".toList
  | 504 => some "Gateway Timeout".toList
  | 505 => some "HTTP Version Not Supported".toList
  | 506 => some "Variant Also Negotiates".toList
  | 507 => some "Insufficient Storage".toList
  | 508 => some "Loop Detected".toList
  | 510 => some "Not Extended".toList
  | 511 => some "Network Authentication Required".toList
  | _ => none

/-- The `Display` of `http::StatusCode`, as used by
`format!("Error status: {}", status)`: the numeric code, a space, and the
canonical reason phrase (or a fixed placeholder when there is none). -/
def statusDisplay (status : Nat) : List Char :=
  Nat.toDigits 10 status ++ ' ' ::
    (match canonicalReason status with
     | some r => r
     | none => "<unknown status code>".toList)

/-- serde deserialization of `ErrorResponse` (src/models.rs lines 23-26)
from a JSON value: the value must be an object with exactly one `detail`
field whose value is a string; unknown fields are ignored. -/
def decodeErrorResponse : Json → Option (List Char)
  | Json.obj fields =>
    match fields.filter (fun p => p.1 = "detail".toList) with
    | [(_, Json.str s)] => some s
    | _ => none
  | _ => none

/-- `LightWaveClient::handle_response_error` (src/api.rs lines 97-109):
read the status, try to decode the body as `ErrorResponse`; on success the
error carries the detail message, otherwise the fallback message built
from the status code display.  The source returns `Err` of this value at
an arbitrary result type. -/
def handle_response_error (resp : Response) : ApiError :=
  match resp.body.bind decodeErrorResponse with
  | some detail => ApiError.apiResponseError detail resp.status
  | none =>
    ApiError.apiResponseError ("Error status: ".toList ++ statusDisplay resp.status)
      resp.status

/-- `LightWaveClient::deserialize_response` (src/api.rs lines 111-126):
on a success status decode the body at the expected type (a failure is a
deserialization error; the runtime serde message is abstracted), otherwise
delegate to `handle_response_error`. -/
def deserialize_response {T : Type} (dec : Json → Option T) (resp : Response) :
    Except ApiError T :=
  if isSuccess resp.status then
    match resp.body.bind dec with
    | some data => Except.ok data
    | none =>
      Except.error (ApiError.deserializationError
        "Failed to parse response: <serde error>".toList)
  else
    Except.error (handle_response_error resp)

example :
    handle_response_error ⟨404, none⟩ =
      ApiError.apiResponseError "Error status: 404 Not Found".toList 404 := by
  rfl

example :
    handle_response_error ⟨404, some (Json.obj [("detail".toList, Json.str "nope".toList)])⟩ =
      ApiError.apiResponseError "nope".toList 404 := by
  rfl

/-! ### Typed response models (src/models.rs) and their serde decoders -/

/-- serde access to a required struct field: the derive errors on a
missing field and on a duplicated field, so exactly one occurrence is
demanded; unknown fields are ignored. -/
def reqField (fields : List (List Char × Json)) (k : List Char) : Option Json :=
  match fields.filter (fun p => p.1 = k) with
  | [p] => some p.2
  | _ => none

/-- serde access to an `Option` struct field: a missing field and an
explicit `null` both give `none`; a duplicated field is an error. -/
def optField (fields : List (List Char × Json)) (k : List Char) :
    Option (Option Json) :=
  match fields.filter (fun p => p.1 = k) with
  | [] => some none
  | [p] =>
    match p.2 with
    | Json.null => some none
    | v => some (some v)
  | _ => none

/-- Decode an `Option` field at an inner type. -/
def decodeOptField {T : Type} (dec : Json → Option T)
    (fields : List (List Char × Json)) (k : List Char) : Option (Option T) :=
  match optField fields k with
  | none => none
  | some none => some none
  | some (some v) => (dec v).map some

/-- serde decode of a Rust `String`. -/
def decodeString : Json → Option (List Char)
  | Json.str s => some s
  | _ => none

/-- serde decode of a Rust `bool`. -/
def decodeBool : Json → Option Bool
  | Json.bool b => some b
  | _ => none

/-- serde decode of a Rust `f64` field: serde_json accepts any JSON
number here, integers included. -/
def decodeNumberAsF64 : Json → Option Rat
  | Json.int n => some (n : Rat)
  | Json.float q => some q
  | _ => none

/-- serde decode of a `Vec`. -/
def decodeList {T : Type} (dec : Json → Option T) : Json → Option (List T)
  | Json.arr xs => xs.mapM dec
  | _ => none

/-- serde decode of a `HashMap<String, serde_json::Value>` (duplicate keys
of the incoming object are immaterial to every claim and kept as-is). -/
def decodeValueMap : Json → Option (List (List Char × Json))
  | Json.obj fields => some fields
  | _ => none

/-- `EffectInfo` (src/models.rs lines 34-38). -/
structure EffectInfo where
  name : List Char
  description : List Char
deriving DecidableEq

/-- `EffectsListResponse` (src/models.rs lines 40-43). -/
structure EffectsListResponse where
  effects : List EffectInfo
deriving DecidableEq

/-- `EffectParameter` (src/models.rs lines 45-55); the JSON field of
`param_type` is renamed to `type` by the serde attribute. -/
structure EffectParameter where
  name : List Char
  param_type : List Char
  description : List Char
  default : Json
  min_value : Option Json
  max_value : Option Json
  options : Option (List (List Char))

/-- `EffectDetailedInfo` (src/models.rs lines 57-62). -/
structure EffectDetailedInfo where
  name : List Char
  description : List Char
  parameters : List EffectParameter

/-- `EffectStatusResponse` (src/models.rs lines 64-72). -/
structure EffectStatusResponse where
  running : Bool
  name : Option (List Char)
  description : Option (List Char)
  parameters : Option (List (List Char × Json))
  start_time : Option (List Char)
  runtime : Option Rat

/-- serde decoder derived for `EffectInfo`. -/
def decodeEffectInfo : Json → Option EffectInfo
  | Json.obj fields => do
    let n ← (reqField fields "name".toList).bind decodeString
    let d ← (reqField fields "description".toList).bind decodeString
    pure ⟨n, d⟩
  | _ => none

/-- serde decoder derived for `EffectsListResponse`. -/
def decodeEffectsListResponse : Json → Option EffectsListResponse
  | Json.obj fields => do
    let l ← (reqField fields "effects".toList).bind (decodeList decodeEffectInfo)
    pure ⟨l⟩
  | _ => none

/-- serde decoder derived for `EffectParameter`. -/
def decodeEffectParameter : Json → Option EffectParameter
  | Json.obj fields => do
    let n ← (reqField fields "name".toList).bind decodeString
    let t ← (reqField fields "type".toList).bind decodeString
    let d ← (reqField fields "description".toList).bind decodeString
    let df ← reqField fields "default".toList
    let mn ← decodeOptField some fields "min_value".toList
    let mx ← decodeOptField some fields "max_value".toList
    let op ← decodeOptField (decodeList decodeString) fields "options".toList
    pure ⟨n, t, d, df, mn, mx, op⟩
  | _ => none

/-- serde decoder derived for `EffectDetailedInfo`. -/
def decodeEffectDetailedInfo : Json → Option EffectDetailedInfo
  | Json.obj fields => do
    let n ← (reqField fields "name".toList).bind decodeString
    let d ← (reqField fields "description".toList).bind decodeString
    let ps ← (reqField fields "parameters".toList).bind (decodeList decodeEffectParameter)
    pure ⟨n, d, ps⟩
  | _ => none

/-- serde decoder derived for `EffectStatusResponse`. -/
def decodeEffectStatusResponse : Json → Option EffectStatusResponse
  | Json.obj fields => do
    let r ← (reqField fields "running".toList).bind decodeBool
    let n ← decodeOptField decodeString fields "name".toList
    let d ← decodeOptField decodeString fields "description".toList
    let p ← decodeOptField decodeValueMap fields "parameters".toList
    let st ← decodeOptField decodeString fields "start_time".toList
    let rt ← decodeOptField decodeNumberAsF64 fields "runtime".toList
    pure ⟨r, n, d, p, st, rt⟩
  | _ => none

/-! ### The client operations (src/api.rs lines 128-238)

Each operation is a function of the `Response` the transport hands back;
operations that build a request URL or body also return that datum, so the
theorems can speak about what is sent.  Transport failures (`send()?`)
happen before a `Response` exists and are outside these functions. -/

/-- `LightWaveClient::list_effects` (lines 131-134): GET {base}/effects. -/
def list_effects (resp : Response) : Except ApiError EffectsListResponse :=
  deserialize_response decodeEffectsListResponse resp

/-- `LightWaveClient::get_effect_info` (lines 136-142): the first
component is the URL built by `format!("{}/effects/{}", base_url, name)`,
the second the handled response. -/
def get_effect_info (base_url name : List Char) (resp : Response) :
    List Char × Except ApiError EffectDetailedInfo :=
  (base_url ++ "/effects/".toList ++ name,
   deserialize_response decodeEffectDetailedInfo resp)

/-- `LightWaveClient::get_effect_status` (lines 144-147): GET {base}/status. -/
def get_effect_status (resp : Response) : Except ApiError EffectStatusResponse :=
  deserialize_response decodeEffectStatusResponse resp

/-- `EffectStartRequest` (src/models.rs lines 16-20). -/
structure EffectStartRequest where
  name : List Char
  parameters : List (List Char × Json)

/-- serde serialization of `EffectStartRequest`: fields in declaration
order. -/
def effectStartRequestToJson (r : EffectStartRequest) : Json :=
  Json.obj [("name".toList, Json.str r.name), ("parameters".toList, Json.obj r.parameters)]

/-- `LightWaveClient::start_effect` (lines 149-170): the first component
is the JSON body POSTed to {base}/effects/start, the second the handled
response. -/
def start_effect (name : List Char) (parameters : List (List Char × Json))
    (resp : Response) : Json × Except ApiError Unit :=
  (effectStartRequestToJson ⟨name, parameters⟩,
   if isSuccess resp.status then Except.ok ()
   else Except.error (handle_response_error resp))

/-- `LightWaveClient::stop_effect` (lines 172-183): POST {base}/effects/stop. -/
def stop_effect (resp : Response) : Except ApiError Unit :=
  if isSuccess resp.status then Except.ok ()
  else Except.error (handle_response_error resp)

/-- serde serialization of `ColorRequest` (src/models.rs lines 6-9). -/
def colorRequestToJson (color : List Char) : Json :=
  Json.obj [("color".toList, Json.str color)]

/-- `LightWaveClient::set_color` (lines 186-202): the POSTed body and the
handled response. -/
def set_color (color : List Char) (resp : Response) : Json × Except ApiError Unit :=
  (colorRequestToJson color,
   if isSuccess resp.status then Except.ok ()
   else Except.error (handle_response_error resp))

/-- serde serialization of `BrightnessRequest` (src/models.rs lines 11-14). -/
def brightnessRequestToJson (b : F32) : Json :=
  Json.obj [("brightness".toList, f32ToJson b)]

/-- `LightWaveClient::set_brightness` (lines 204-224): the guard is the
source expression `brightness < 0.0 || brightness > 1.0` under IEEE
comparison.  The first component is the POSTed body; it is `none` exactly
when the guard fires and no network call happens. -/
def set_brightness (brightness : F32) (resp : Response) :
    Option Json × Except ApiError Unit :=
  if F32.lt brightness (F32.finite 0) || F32.lt (F32.finite 1) brightness then
    (none,
     Except.error (ApiError.clientError "Brightness must be between 0.0 and 1.0".toList))
  else
    (some (brightnessRequestToJson brightness),
     if isSuccess resp.status then Except.ok ()
     else Except.error (handle_response_error resp))

/-- `LightWaveClient::clear_leds` (lines 226-237): POST {base}/leds/clear. -/
def clear_leds (resp : Response) : Except ApiError Unit :=
  if isSuccess resp.status then Except.ok ()
  else Except.error (handle_response_error resp)

/-- The `EffectCommands::Stop` arm of `handle_effect_commands`
(src/cli.rs lines 235-247): a stop failure that is an API response error
with status 404 is reported as "no effect running" and the command still
returns `Ok`; every other error propagates. -/
def handle_effect_stop (resp : Response) : Except ApiError Unit :=
  match stop_effect resp with
  | Except.ok _ => Except.ok ()
  | Except.error e =>
    match e with
    | ApiError.apiResponseError _ status =>
      if status = 404 then Except.ok () else Except.error e
    | _ => Except.error e

/-! ### Helper lemmas -/

/-- `format_base_url` written as a single conditional. -/
theorem format_base_url_eq (url : List Char) :
    format_base_url url =
      if "/api".toList.isSuffixOf (trimEndSlashes url) then trimEndSlashes url
      else trimEndSlashes url ++ "/api".toList := rfl

/-- A non-success response is always classified as an API response error
carrying the status code. -/
theorem handle_response_error_shape (resp : Response) :
    ∃ m, handle_response_error resp = ApiError.apiResponseError m resp.status := by
  unfold handle_response_error
  cases hb : resp.body.bind decodeErrorResponse with
  | none => exact ⟨"Error status: ".toList ++ statusDisplay resp.status, by simp [hb]⟩
  | some d => exact ⟨d, by simp [hb]⟩

/-- A boolean known to be false is not true. -/
theorem bool_ne_true {b : Bool} (h : b = false) : ¬ b = true := by
  rw [h]; decide

/-- `splitOnce` finds nothing exactly when the character is absent. -/
theorem splitOnce_eq_none (c : Char) (s : List Char) :
    splitOnce c s = none ↔ c ∉ s := by
  induction s with
  | nil => simp [splitOnce]
  | cons x xs ih =>
    by_cases hx : x = c
    · subst hx
      simp [splitOnce]
    · have hmem : (c ∈ x :: xs) ↔ c ∈ xs := by
        rw [List.mem_cons]
        constructor
        · rintro (h | h)
          · exact absurd h.symm hx
          · exact h
        · exact Or.inr
      rw [hmem, ← ih]
      have heq : splitOnce c (x :: xs) =
          match splitOnce c xs with
          | some q => some (x :: q.1, q.2)
          | none => none := by
        simp [splitOnce, hx]
      rw [heq]
      cases hs : splitOnce c xs with
      | none => simp
      | some q => simp

/-- `splitOnce` splits at the first occurrence: when the key holds no
`=`, the entry `k = v` splits into the key and the whole remainder, which
may itself contain `=`. -/
theorem splitOnce_append (k v : List Char) (h : '=' ∉ k) :
    splitOnce '=' (k ++ '=' :: v) = some (k, v) := by
  induction k with
  | nil => simp [splitOnce]
  | cons x xs ih =>
    rw [List.mem_cons] at h
    push_neg at h
    have hx : ¬ x = '=' := fun hc => h.1 hc.symm
    have ihx := ih h.2
    simp [splitOnce, hx, ihx]

/-- Lookup after a replace-on-insert. -/
theorem lookupAL_insertAL (m : List (List Char × Json)) (k k' : List Char) (v : Json) :
    lookupAL (insertAL m k v) k' = if k = k' then some v else lookupAL m k' := by
  induction m with
  | nil => by_cases h : k = k' <;> simp [insertAL, lookupAL, h]
  | cons p rest ih =>
    unfold insertAL
    by_cases hp : p.1 = k
    · rw [if_pos hp]
      by_cases h : k = k'
      · simp [lookupAL, h]
      · have hp' : ¬ p.1 = k' := fun hc => h (hp.symm.trans hc)
        simp [lookupAL, h, hp, hp']
    · rw [if_neg hp]
      unfold lookupAL
      by_cases hq : p.1 = k'
      · have hk : ¬ k = k' := fun hc => hp (hq.trans hc.symm)
        simp [hq, hk]
      · simp [hq, ih]

/-- Folding the `parse_params` loop from any accumulator: the lookup of a
key is the coerced last value assigned to it, with the accumulator
consulted only when no entry assigns the key. -/
theorem lookupAL_foldl (ps : List (List Char)) (acc : List (List Char × Json))
    (k : List Char) :
    lookupAL (List.foldl parseParamsStep acc ps) k =
      (match lastValueFor k ps with
       | some v => some (coerceValue v)
       | none => lookupAL acc k) := by
  induction ps generalizing acc with
  | nil => simp [lastValueFor]
  | cons p ps ih =>
    rw [List.foldl_cons, ih]
    cases hl : lastValueFor k ps with
    | some v => simp [lastValueFor, hl]
    | none =>
      simp only [lastValueFor, hl]
      unfold parseParamsStep
      cases hs : splitOnce '=' p with
      | none => simp
      | some kv =>
        rw [lookupAL_insertAL]
        by_cases hk : kv.1 = k
        · simp [hk]
        · simp [hk]

/-! ### Claim theorems -/

/-- C4: base URL normalization: for every input string the result never
ends in a slash; when the input with trailing slashes removed already ends
in "/api" it is returned unchanged apart from that trimming, otherwise
"/api" is appended exactly once. -/
theorem c4_format_base_url_normalization (url : List Char) :
    (format_base_url url).getLast? ≠ some '/' ∧
    ("/api".toList.isSuffixOf (trimEndSlashes url) = true →
      format_base_url url = trimEndSlashes url) ∧
    ("/api".toList.isSuffixOf (trimEndSlashes url) = false →
      format_base_url url = trimEndSlashes url ++ "/api".toList) := by
  rw [format_base_url_eq]
  by_cases h : "/api".toList.isSuffixOf (trimEndSlashes url) = true
  · refine ⟨?_, fun _ => by rw [if_pos h],
      fun hf => by rw [hf] at h; exact absurd h (by decide)⟩
    rw [if_pos h]
    obtain ⟨t, ht⟩ := List.isSuffixOf_iff_suffix.mp h
    rw [← ht, List.getLast?_append]
    have he : ("/api".toList.getLast?).or t.getLast? = some 'i' := rfl
    rw [he]
    decide
  · refine ⟨?_, fun ht => absurd ht h, fun _ => by rw [if_neg h]⟩
    rw [if_neg h, List.getLast?_append]
    have he : ("/api".toList.getLast?).or (trimEndSlashes url).getLast? = some 'i' := rfl
    rw [he]
    decide

/-- Witness for C4 at the spec's own examples: "http://h:8000/api/" is
already normalized apart from trimming, "http://h:8000/" gets "/api"
appended, and the appended result does not end in a slash. -/
theorem c4_witness :
    format_base_url "http://h:8000/api/".toList =
        trimEndSlashes "http://h:8000/api/".toList ∧
    format_base_url "http://h:8000/".toList =
        trimEndSlashes "http://h:8000/".toList ++ "/api".toList ∧
    (format_base_url "http://h:8000/".toList).getLast? ≠ some '/' :=
  ⟨(c4_format_base_url_normalization "http://h:8000/api/".toList).2.1 (by decide),
   (c4_format_base_url_normalization "http://h:8000/".toList).2.2 (by decide),
   (c4_format_base_url_normalization "http://h:8000/".toList).1⟩

/-- C8: a 404 response to the stop-effect operation is an API response
error at the client layer, and the dispatch layer turns it into a
successful completion of the stop command. -/
theorem c8_stop_404_ok (body : Option Json) :
    (∃ m, stop_effect ⟨404, body⟩ = Except.error (ApiError.apiResponseError m 404)) ∧
    handle_effect_stop ⟨404, body⟩ = Except.ok () := by
  have hs : isSuccess 404 = false := by decide
  obtain ⟨m, hm⟩ := handle_response_error_shape ⟨404, body⟩
  refine ⟨⟨m, ?_⟩, ?_⟩
  · unfold stop_effect
    simp [hs, hm]
  · unfold handle_effect_stop stop_effect
    simp [hs, hm]

/-- C9: base URL resolution priority: an explicit argument always wins
and is normalized; otherwise a set LIGHTWAVE_URL value wins and is
normalized; otherwise the result is exactly "http://localhost:8000/api". -/
theorem c9_base_url_priority (url_arg env_url : Option (List Char)) :
    (∀ u, url_arg = some u →
      get_base_url url_arg env_url = Except.ok (format_base_url u)) ∧
    (url_arg = none → ∀ u, env_url = some u →
      get_base_url url_arg env_url = Except.ok (format_base_url u)) ∧
    (url_arg = none → env_url = none →
      get_base_url url_arg env_url = Except.ok "http://localhost:8000/api".toList) := by
  refine ⟨?_, ?_, ?_⟩ <;> intros <;> subst_vars <;> rfl

/-- Witness for C9: the argument beats a set environment value, the
environment value is used when no argument is given, and the default
appears when neither is set. -/
theorem c9_witness :
    get_base_url (some "http://h:8000/".toList) (some "http://env".toList) =
        Except.ok "http://h:8000/api".toList ∧
    get_base_url none (some "http://env".toList) =
        Except.ok "http://env/api".toList ∧
    get_base_url none none = Except.ok "http://localhost:8000/api".toList :=
  ⟨((c9_base_url_priority (some "http://h:8000/".toList)
      (some "http://env".toList)).1 "http://h:8000/".toList rfl).trans (by rfl),
   ((c9_base_url_priority none (some "http://env".toList)).2.1 rfl
      "http://env".toList rfl).trans (by rfl),
   (c9_base_url_priority none none).2.2 rfl rfl⟩

/-- C10: the effect-detail operation interpolates the effect name
verbatim into "{base_url}/effects/{name}" with no encoding, so any two
distinct names give distinct request URLs. -/
theorem c10_effect_info_url_verbatim (base_url name : List Char) (resp : Response) :
    (get_effect_info base_url name resp).1 = base_url ++ "/effects/".toList ++ name ∧
    (∀ other, (get_effect_info base_url other resp).1 =
        (get_effect_info base_url name resp).1 → other = name) := by
  refine ⟨rfl, fun other h => ?_⟩
  exact List.append_cancel_left h

/-- Witness for C10: a name containing a slash, a question mark and a
space lands verbatim in the URL. -/
theorem c10_witness :
    (get_effect_info "http://h:8000/api".toList "a?b c/d".toList ⟨200, none⟩).1 =
        "http://h:8000/api/effects/a?b c/d".toList ∧
    "a?b c/d".toList = "a?b c/d".toList :=
  ⟨((c10_effect_info_url_verbatim "http://h:8000/api".toList "a?b c/d".toList
      ⟨200, none⟩).1).trans (by decide),
   (c10_effect_info_url_verbatim "http://h:8000/api".toList "a?b c/d".toList
      ⟨200, none⟩).2 "a?b c/d".toList rfl⟩

/-- Counterexample to C1 as stated: a 404 response whose body is not
decodable as an error body yields the message "Error status: 404 Not
Found" — the status code display of the http crate includes the canonical
reason phrase — and not the literal "Error status: 404". -/
theorem c1_counterexample :
    stop_effect ⟨404, none⟩ =
        Except.error
          (ApiError.apiResponseError "Error status: 404 Not Found".toList 404) ∧
    "Error status: 404 Not Found".toList ≠ "Error status: 404".toList :=
  ⟨rfl, by decide⟩

/-- C1 (amended): for every response with a non-success status, every
client operation returns an API response error carrying the status code;
the message equals the decoded detail field when the body decodes as
{detail: string}, and otherwise is "Error status: " followed by the
status code display (numeric code, space, canonical reason phrase). -/
theorem c1_amended_nonsuccess_error_classification (resp : Response)
    (h : isSuccess resp.status = false) :
    ∃ m,
      (∀ j d, resp.body = some j → decodeErrorResponse j = some d → m = d) ∧
      (resp.body.bind decodeErrorResponse = none →
        m = "Error status: ".toList ++ statusDisplay resp.status) ∧
      list_effects resp = Except.error (ApiError.apiResponseError m resp.status) ∧
      (∀ b n, (get_effect_info b n resp).2 =
        Except.error (ApiError.apiResponseError m resp.status)) ∧
      get_effect_status resp = Except.error (ApiError.apiResponseError m resp.status) ∧
      (∀ nm ps, (start_effect nm ps resp).2 =
        Except.error (ApiError.apiResponseError m resp.status)) ∧
      stop_effect resp = Except.error (ApiError.apiResponseError m resp.status) ∧
      (∀ c, (set_color c resp).2 =
        Except.error (ApiError.apiResponseError m resp.status)) ∧
      (∀ b, (F32.lt b (F32.finite 0) || F32.lt (F32.finite 1) b) = false →
        (set_brightness b resp).2 =
          Except.error (ApiError.apiResponseError m resp.status)) ∧
      clear_leds resp = Except.error (ApiError.apiResponseError m resp.status) := by
  cases hb : resp.body.bind decodeErrorResponse with
  | some d =>
    have hre : handle_response_error resp = ApiError.apiResponseError d resp.status := by
      unfold handle_response_error; rw [hb]
    refine ⟨d, fun j d' hj hd => ?_, fun hn => ?_, ?_, ?_, ?_, ?_, ?_, ?_, ?_, ?_⟩
    · rw [hj] at hb; simp at hb; rw [hd] at hb
      exact Option.some.inj hb.symm
    · exact absurd hn (by simp)
    · unfold list_effects deserialize_response; simp [h, hre]
    · intro b n; unfold get_effect_info deserialize_response; simp [h, hre]
    · unfold get_effect_status deserialize_response; simp [h, hre]
    · intro nm ps; unfold start_effect; simp [h, hre]
    · unfold stop_effect; simp [h, hre]
    · intro c; unfold set_color; simp [h, hre]
    · intro b hbr; unfold set_brightness; simp [h, hre, hbr]
    · unfold clear_leds; simp [h, hre]
  | none =>
    have hre : handle_response_error resp =
        ApiError.apiResponseError
          ("Error status: ".toList ++ statusDisplay resp.status) resp.status := by
      unfold handle_response_error; rw [hb]
    refine ⟨_, fun j d' hj hd => ?_, fun _ => rfl, ?_, ?_, ?_, ?_, ?_, ?_, ?_, ?_⟩
    · rw [hj] at hb; simp at hb; rw [hb] at hd; exact absurd hd (by simp)
    · unfold list_effects deserialize_response; simp [h, hre]
    · intro b n; unfold get_effect_info deserialize_response; simp [h, hre]
    · unfold get_effect_status deserialize_response; simp [h, hre]
    · intro nm ps; unfold start_effect; simp [h, hre]
    · unfold stop_effect; simp [h, hre]
    · intro c; unfold set_color; simp [h, hre]
    · intro b hbr; unfold set_brightness; simp [h, hre, hbr]
    · unfold clear_leds; simp [h, hre]

/-- Witness for the amended C1: a 500 with a detail body carries the
detail message; a 404 with an unreadable body carries the fallback
message. -/
theorem c1_witness :
    stop_effect ⟨500, some (Json.obj [("detail".toList, Json.str "boom".toList)])⟩ =
      Except.error (ApiError.apiResponseError "boom".toList 500) ∧
    clear_leds ⟨404, none⟩ =
      Except.error
        (ApiError.apiResponseError "Error status: 404 Not Found".toList 404) := by
  constructor
  · obtain ⟨m, h1, h2, h3, h4, h5, h6, h7, h8, h9, h10⟩ :=
      c1_amended_nonsuccess_error_classification
        ⟨500, some (Json.obj [("detail".toList, Json.str "boom".toList)])⟩ (by decide)
    have hm : m = "boom".toList := h1 _ _ rfl rfl
    exact hm ▸ h7
  · obtain ⟨m, h1, h2, h3, h4, h5, h6, h7, h8, h9, h10⟩ :=
      c1_amended_nonsuccess_error_classification ⟨404, none⟩ (by decide)
    have hm : m = "Error status: 404 Not Found".toList := (h2 rfl).trans (by decide)
    exact hm ▸ h10

/-- C2: the status is examined before the body: on a non-success status
the result is exactly the error classification, independent of the
expected payload type; on a success status a decodable body yields its
typed value and an undecodable body yields a deserialization error —
never a success value and never an API response error. -/
theorem c2_status_checked_before_body {T : Type} (dec : Json → Option T)
    (resp : Response) :
    (isSuccess resp.status = false →
      deserialize_response dec resp = Except.error (handle_response_error resp) ∧
      ∃ m, deserialize_response dec resp =
        Except.error (ApiError.apiResponseError m resp.status)) ∧
    (isSuccess resp.status = true →
      (∀ d, resp.body.bind dec = some d →
        deserialize_response dec resp = Except.ok d) ∧
      (resp.body.bind dec = none → ∃ m,
        deserialize_response dec resp =
          Except.error (ApiError.deserializationError m))) := by
  constructor
  · intro h
    refine ⟨by unfold deserialize_response; simp [h], ?_⟩
    obtain ⟨m, hm⟩ := handle_response_error_shape resp
    exact ⟨m, by unfold deserialize_response; simp [h, hm]⟩
  · intro h
    constructor
    · intro d hd
      unfold deserialize_response
      simp [h, hd]
    · intro hn
      exact ⟨"Failed to parse response: <serde error>".toList,
        by unfold deserialize_response; simp [h, hn]⟩

/-- Witness for C2: with the effect-list payload type, a success status
with a matching body yields the typed value, a success status with a
mismatched body a deserialization error, and a non-success status an API
response error. -/
theorem c2_witness :
    deserialize_response decodeEffectsListResponse
        ⟨200, some (Json.obj [("effects".toList, Json.arr [])])⟩ =
      Except.ok ⟨[]⟩ ∧
    (∃ m, deserialize_response decodeEffectsListResponse ⟨200, some Json.null⟩ =
      Except.error (ApiError.deserializationError m)) ∧
    (∃ m, deserialize_response decodeEffectsListResponse ⟨404, some Json.null⟩ =
      Except.error (ApiError.apiResponseError m 404)) :=
  ⟨((c2_status_checked_before_body decodeEffectsListResponse
      ⟨200, some (Json.obj [("effects".toList, Json.arr [])])⟩).2 (by decide)).1
        ⟨[]⟩ rfl,
   ((c2_status_checked_before_body decodeEffectsListResponse
      ⟨200, some Json.null⟩).2 (by decide)).2 rfl,
   ((c2_status_checked_before_body decodeEffectsListResponse
      ⟨404, some Json.null⟩).1 (by decide)).2⟩

/-- Counterexample to C3 as stated: NaN lies outside [0.0, 1.0] — it
compares false to both bounds — yet set_brightness performs the network
call (the serialized body carries null for the non-finite float) and
reports the transport outcome instead of the client precondition
error. -/
theorem c3_counterexample :
    F32.le (F32.finite 0) F32.nan = false ∧
    F32.le F32.nan (F32.finite 1) = false ∧
    (set_brightness F32.nan ⟨200, none⟩).1 =
      some (Json.obj [("brightness".toList, Json.null)]) ∧
    (set_brightness F32.nan ⟨200, none⟩).2 = Except.ok () :=
  ⟨rfl, rfl, rfl, rfl⟩

/-- C3 (amended): set_brightness fails with the client precondition error
(message only, no status code) and performs no network call exactly when
brightness < 0.0 or brightness > 1.0 under IEEE comparison; for every
other value the network call is performed — in particular for every value
of [0.0, 1.0], boundaries included, and also for NaN, which compares
false to both bounds. -/
theorem c3_amended_brightness_precondition (b : F32) (resp : Response) :
    ((F32.lt b (F32.finite 0) || F32.lt (F32.finite 1) b) = true →
      set_brightness b resp =
        (none, Except.error (ApiError.clientError
          "Brightness must be between 0.0 and 1.0".toList))) ∧
    ((F32.lt b (F32.finite 0) || F32.lt (F32.finite 1) b) = false →
      (set_brightness b resp).1 = some (brightnessRequestToJson b)) ∧
    (F32.le (F32.finite 0) b = true → F32.le b (F32.finite 1) = true →
      (F32.lt b (F32.finite 0) || F32.lt (F32.finite 1) b) = false) := by
  refine ⟨fun hg => ?_, fun hg => ?_, fun h0 h1 => ?_⟩
  · unfold set_brightness; rw [if_pos hg]
  · unfold set_brightness; rw [if_neg (by simp [hg])]
  · cases b with
    | nan => simp [F32.le] at h0
    | inf neg => cases neg <;> simp [F32.le] at h0 h1
    | finite q =>
      simp [F32.le] at h0 h1
      simp [F32.lt]
      exact ⟨h0, h1⟩

/-- Witness for the amended C3: 2.0 is rejected client-side with no
network call, the boundary 1.0 is accepted and the request is sent, and
the boundary check holds of 0.0. -/
theorem c3_witness :
    set_brightness (F32.finite 2) ⟨200, none⟩ =
      (none, Except.error (ApiError.clientError
        "Brightness must be between 0.0 and 1.0".toList)) ∧
    (set_brightness (F32.finite 1) ⟨200, none⟩).1 =
      some (brightnessRequestToJson (F32.finite 1)) ∧
    (F32.lt (F32.finite 0) (F32.finite 0) || F32.lt (F32.finite 1) (F32.finite 0)) = false :=
  ⟨(c3_amended_brightness_precondition (F32.finite 2) ⟨200, none⟩).1 (by rfl),
   (c3_amended_brightness_precondition (F32.finite 1) ⟨200, none⟩).2.1 (by rfl),
   (c3_amended_brightness_precondition (F32.finite 0) ⟨200, none⟩).2.2 (by rfl) (by rfl)⟩

/-- C7: starting effect "rainbow" with parameters ["speed=5",
"smooth=true"] sends the body {"name":"rainbow","parameters":{"speed":5,
"smooth":true}} with speed a JSON integer and smooth a JSON boolean; a
200 response yields success and a 404 response an API response error
carrying status 404. -/
theorem c7_start_effect_rainbow (resp : Response) :
    (start_effect "rainbow".toList
        (parse_params ["speed=5".toList, "smooth=true".toList]) resp).1 =
      Json.obj [("name".toList, Json.str "rainbow".toList),
        ("parameters".toList,
          Json.obj [("speed".toList, Json.int 5),
            ("smooth".toList, Json.bool true)])] ∧
    (resp.status = 200 →
      (start_effect "rainbow".toList
        (parse_params ["speed=5".toList, "smooth=true".toList]) resp).2 =
          Except.ok ()) ∧
    (resp.status = 404 → ∃ m,
      (start_effect "rainbow".toList
        (parse_params ["speed=5".toList, "smooth=true".toList]) resp).2 =
          Except.error (ApiError.apiResponseError m 404)) := by
  refine ⟨rfl, fun h200 => ?_, fun h404 => ?_⟩
  · unfold start_effect
    simp [h200, isSuccess]
  · obtain ⟨m, hm⟩ := handle_response_error_shape resp
    refine ⟨m, ?_⟩
    have hs : isSuccess 404 = false := by decide
    unfold start_effect
    simp [h404, hs, hm]

/-- Witness for C7 at the two concrete statuses. -/
theorem c7_witness :
    (start_effect "rainbow".toList
        (parse_params ["speed=5".toList, "smooth=true".toList]) ⟨200, none⟩).2 =
      Except.ok () ∧
    (∃ m, (start_effect "rainbow".toList
        (parse_params ["speed=5".toList, "smooth=true".toList]) ⟨404, none⟩).2 =
      Except.error (ApiError.apiResponseError m 404)) :=
  ⟨(c7_start_effect_rainbow ⟨200, none⟩).2.1 rfl,
   (c7_start_effect_rainbow ⟨404, none⟩).2.2 rfl⟩

/-- C5: value coercion classifies each value substring by trying, in
strict order: a case-insensitive match against true/false gives a
boolean; then an i64 parse gives an integer number; then an f64 parse
gives a floating-point number unless the parsed value is non-finite (NaN
or an infinity), in which case the verbatim string; otherwise the
verbatim string with no trimming or unescaping. -/
theorem c5_value_coercion_order (v : List Char) :
    (eqIgnoreAsciiCase v "true".toList = true → coerceValue v = Json.bool true) ∧
    (eqIgnoreAsciiCase v "true".toList = false →
      eqIgnoreAsciiCase v "false".toList = true → coerceValue v = Json.bool false) ∧
    (∀ n, eqIgnoreAsciiCase v "true".toList = false →
      eqIgnoreAsciiCase v "false".toList = false →
      parseI64 v = some n → coerceValue v = Json.int n) ∧
    (∀ q, eqIgnoreAsciiCase v "true".toList = false →
      eqIgnoreAsciiCase v "false".toList = false →
      parseI64 v = none → parseF64 v = some (F64Val.finite q) →
      coerceValue v = Json.float q) ∧
    (eqIgnoreAsciiCase v "true".toList = false →
      eqIgnoreAsciiCase v "false".toList = false →
      parseI64 v = none →
      (parseF64 v = none ∨ parseF64 v = some F64Val.nan ∨
        ∃ b, parseF64 v = some (F64Val.inf b)) →
      coerceValue v = Json.str v) := by
  refine ⟨fun ht => ?_, fun ht hf => ?_, fun n ht hf hi => ?_, fun q ht hf hi hq => ?_,
    fun ht hf hi hr => ?_⟩
  · unfold coerceValue; rw [if_pos ht]
  · unfold coerceValue
    rw [if_neg (bool_ne_true ht), if_pos hf]
  · unfold coerceValue
    rw [if_neg (bool_ne_true ht), if_neg (bool_ne_true hf), hi]
  · unfold coerceValue
    rw [if_neg (bool_ne_true ht), if_neg (bool_ne_true hf), hi, hq]
  · unfold coerceValue
    rw [if_neg (bool_ne_true ht), if_neg (bool_ne_true hf), hi]
    rcases hr with h | h | ⟨b, h⟩ <;> rw [h]

/-- Witness for C5: booleans in every case, the integer path beating the
float path on "42", a finite float, the NaN and overflow fallbacks, a
plain string, and the absence of trimming. -/
theorem c5_witness :
    coerceValue "TRUE".toList = Json.bool true ∧
    coerceValue "False".toList = Json.bool false ∧
    coerceValue "42".toList = Json.int 42 ∧
    (∃ q, coerceValue "3.14".toList = Json.float q) ∧
    coerceValue "nan".toList = Json.str "nan".toList ∧
    coerceValue "1e999".toList = Json.str "1e999".toList ∧
    coerceValue "hello".toList = Json.str "hello".toList ∧
    coerceValue " 42 ".toList = Json.str " 42 ".toList :=
  ⟨(c5_value_coercion_order "TRUE".toList).1 (by decide),
   (c5_value_coercion_order "False".toList).2.1 (by decide) (by decide),
   (c5_value_coercion_order "42".toList).2.2.1 42 (by decide) (by decide) (by decide),
   ⟨_, (c5_value_coercion_order "3.14".toList).2.2.2.1 _ (by decide) (by decide)
      (by decide) rfl⟩,
   (c5_value_coercion_order "nan".toList).2.2.2.2 (by decide) (by decide) (by decide)
     (Or.inr (Or.inl rfl)),
   (c5_value_coercion_order "1e999".toList).2.2.2.2 (by decide) (by decide) (by decide)
     (Or.inr (Or.inr ⟨false, rfl⟩)),
   (c5_value_coercion_order "hello".toList).2.2.2.2 (by decide) (by decide) (by decide)
     (Or.inl rfl),
   (c5_value_coercion_order " 42 ".toList).2.2.2.2 (by decide) (by decide) (by decide)
     (Or.inl rfl)⟩

/-- C6: parse_params drops entries without `=` silently, splits each
remaining entry on the first `=` only (values may contain `=`), keeps the
last occurrence of a duplicated key, and maps the example
["a=1", "b=true", "a=2", "c=x=y"] to {a: 2, b: true, c: "x=y"}. -/
theorem c6_parse_params_semantics (ps qs : List (List Char)) (s k v : List Char) :
    ('=' ∉ s → parse_params (ps ++ s :: qs) = parse_params (ps ++ qs)) ∧
    ('=' ∉ k → lookupAL (parse_params [k ++ '=' :: v]) k = some (coerceValue v)) ∧
    (lookupAL (parse_params ps) k = (lastValueFor k ps).map coerceValue) ∧
    (parse_params ["a=1".toList, "b=true".toList, "a=2".toList, "c=x=y".toList] =
      [("a".toList, Json.int 2), ("b".toList, Json.bool true),
       ("c".toList, Json.str "x=y".toList)]) := by
  refine ⟨fun hs => ?_, fun hk => ?_, ?_, rfl⟩
  · unfold parse_params
    rw [List.foldl_append, List.foldl_append, List.foldl_cons]
    have hn : splitOnce '=' s = none := (splitOnce_eq_none '=' s).mpr hs
    have hstep : parseParamsStep (List.foldl parseParamsStep [] ps) s =
        List.foldl parseParamsStep [] ps := by
      unfold parseParamsStep; rw [hn]
    rw [hstep]
  · unfold parse_params
    rw [List.foldl_cons, List.foldl_nil]
    unfold parseParamsStep
    rw [splitOnce_append k v hk]
    simp [insertAL, lookupAL]
  · unfold parse_params
    rw [lookupAL_foldl]
    cases lastValueFor k ps <;> simp [lookupAL]

/-- Witness for C6: an entry without `=` is dropped, a value containing
`=` stays whole, and the duplicate key keeps its last value. -/
theorem c6_witness :
    parse_params ["x".toList, "a=1".toList] = parse_params ["a=1".toList] ∧
    lookupAL (parse_params ["c=x=y".toList]) "c".toList =
      some (coerceValue "x=y".toList) ∧
    lookupAL (parse_params ["a=1".toList, "a=2".toList]) "a".toList =
      (lastValueFor "a".toList ["a=1".toList, "a=2".toList]).map coerceValue :=
  ⟨(c6_parse_params_semantics [] ["a=1".toList] "x".toList [] []).1 (by decide),
   (c6_parse_params_semantics [] [] [] "c".toList "x=y".toList).2.1 (by decide),
   (c6_parse_params_semantics ["a=1".toList, "a=2".toList] [] [] "a".toList []).2.2.1⟩

end LightWave
